import Mathlib

/-!
Verification of the cart-synchronization core of `src/assets/add-to-cart.js`
(classes `CartAPI`, `CartStore`, `CartManager`).

Shallow embedding conventions:
* JavaScript values that the code reads field-by-field are modelled by
  structures whose fields are `Option`-typed where the JS value may be
  absent (`undefined`/`null`) or of the wrong shape.
* `fetch` is modelled by an oracle: a `NetState` holds a scripted list of
  pending `HttpResponse`s consumed in order, plus the trace of issued
  `HttpRequest`s.  An empty script models a network-level rejection
  (`fetch` rejecting with message "Failed to fetch").
* `await response.json()` failing (body not JSON) is modelled by
  `HttpResponse.json = none`; the thrown SyntaxError is modelled by the
  fixed message `jsonParseError`.
* Thrown JS `Error(message)` values are modelled as `Except.error message`.
-/

/-- JS truthiness-based `a || b` for optional strings: `undefined`, `null`
and `""` are falsy. -/
def jsOrS (o : Option String) (d : String) : String :=
  match o with
  | some s => if s = "" then d else s
  | none => d

/-- JS `x || 0` for an optional integer field (`undefined`/`null` ↦ 0;
the falsy number 0 also yields 0, which `Option.getD` matches). -/
def jsOrZero (o : Option Int) : Int :=
  o.getD 0

/-- One cart line as returned by the storefront (`key`, `id`, `quantity`,
`price`, `available`, `properties`); only the fields the cart code reads. -/
structure LineItem where
  key : String
  id : String
  quantity : Int
  price : Int
  available : Bool
  properties : List (String × String)
deriving DecidableEq, Repr

/-- The cart-shaped view of a parsed JSON response body: the three fields
`CartStore.updateCart` reads.  `items = none` models "the `items` field is
not an array"; `item_count`/`total_price = none` model absent fields. -/
structure CartData where
  items : Option (List LineItem)
  item_count : Option Int
  total_price : Option Int
deriving DecidableEq, Repr

/-- A parsed JSON response body, modelled by the fields the code may read:
its cart-shaped view, and the `description`/`message` fields read on error
bodies. -/
structure JsonBody where
  asCart : CartData
  description : Option String
  message : Option String
deriving DecidableEq, Repr

/-- Request payload of a single added line:
`{ id, quantity, properties? }` (the `properties` key is included only when
at least one property was collected, per `handleFormSubmit`). -/
structure AddItemReq where
  id : String
  quantity : Int
  properties : Option (List (String × String))
deriving DecidableEq, Repr

/-- Body of an issued HTTP request. -/
inductive ReqBody where
  | addOne (item : AddItemReq)
  | addMany (items : List AddItemReq)
  | change (id : String) (quantity : Int)
  | emptyBody
deriving DecidableEq, Repr

/-- One HTTP request as issued by `fetch`. -/
structure HttpRequest where
  method : String
  path : String
  body : ReqBody
deriving DecidableEq, Repr

/-- `POST /cart/add.js` with a single item (`CartAPI.addItem`). -/
def addRequest (item : AddItemReq) : HttpRequest :=
  ⟨"POST", "/cart/add.js", ReqBody.addOne item⟩

/-- `POST /cart/add.js` with `{ items }` (`CartAPI.addItems`). -/
def addManyRequest (items : List AddItemReq) : HttpRequest :=
  ⟨"POST", "/cart/add.js", ReqBody.addMany items⟩

/-- `POST /cart/change.js` with `{ id: key, quantity }`
(`CartAPI.updateItem` and `CartAPI.removeItem`). -/
def changeRequest (key : String) (quantity : Int) : HttpRequest :=
  ⟨"POST", "/cart/change.js", ReqBody.change key quantity⟩

/-- `GET /cart.js` (`CartAPI.getCart`). -/
def getRequest : HttpRequest :=
  ⟨"GET", "/cart.js", ReqBody.emptyBody⟩

/-- An HTTP response: `ok` (status in the 2xx range), the parsed JSON body
(`none` when the body is not JSON, so `response.json()` throws), and the
raw body text read by `response.text()`. -/
structure HttpResponse where
  ok : Bool
  json : Option JsonBody
  text : String
deriving DecidableEq, Repr

/-- Modelled message of the SyntaxError thrown by `response.json()` when
the body is not JSON. -/
def jsonParseError : String := "Unexpected token"

/-- Network oracle state: scripted responses still pending, and the trace
of requests issued so far. -/
structure NetState where
  pending : List HttpResponse
  trace : List HttpRequest
deriving DecidableEq, Repr

/-- One `fetch` call: records the request and consumes the next scripted
response; with no script left, the fetch rejects ("Failed to fetch"). -/
def fetchStep (req : HttpRequest) (net : NetState) :
    Except String HttpResponse × NetState :=
  match net.pending with
  | [] => (Except.error "Failed to fetch", { net with trace := net.trace ++ [req] })
  | r :: rest => (Except.ok r, { pending := rest, trace := net.trace ++ [req] })

/-! ### CartStore (`src/assets/add-to-cart.js` lines 176-274) -/

/-- The reactive cart store's state: snapshot fields plus transient UI
flags, exactly the fields initialized in the `CartStore` constructor. -/
structure StoreState where
  items : List LineItem
  item_count : Int
  total_price : Int
  formatted_total : String
  loading : Bool
  error : Option String
deriving DecidableEq, Repr

/-- Initial store state from the `CartStore` constructor (lines 178-184). -/
def CartStore.initial : StoreState :=
  { items := [], item_count := 0, total_price := 0,
    formatted_total := "$0.00", loading := false, error := none }

/-- `(cents / 100).toFixed(2)` for an integer number of cents.  Integer
cents make `toFixed(2)` exact, so the decimal expansion is computed
directly: sign, integer part, dot, two-digit fractional part. -/
def toFixed2 (cents : Int) : String :=
  (if cents < 0 then "-" else "") ++ toString (cents.natAbs / 100) ++ "." ++
    (if cents.natAbs % 100 < 10 then "0" else "") ++ toString (cents.natAbs % 100)

/-- The fallback branch of `formatMoney` (line 227). -/
def formatMoneyFallback (cents : Int) : String :=
  "$" ++ toFixed2 cents

/-- `CartStore.formatMoney` (lines 222-228): delegate to the platform
formatter `window.Shopify.formatMoney` when present (`fmt = some f`),
else the fixed fallback. -/
def formatMoney (fmt : Option (Int → String)) (cents : Int) : String :=
  match fmt with
  | some f => f cents
  | none => formatMoneyFallback cents

/-- `CartStore.updateCart` (lines 190-215): force `items` to an array,
default the counters to 0, recompute `formatted_total`, clear `error`. -/
def updateCart (fmt : Option (Int → String)) (st : StoreState)
    (cartData : CartData) : StoreState :=
  let items := cartData.items.getD []
  { st with
    items := items,
    item_count := jsOrZero cartData.item_count,
    total_price := jsOrZero cartData.total_price,
    formatted_total := formatMoney fmt (jsOrZero cartData.total_price),
    error := none }

/-- `CartStore.getItem` (lines 235-237): first line with the given key. -/
def getItem (st : StoreState) (key : String) : Option LineItem :=
  st.items.find? (fun item => item.key = key)

/-- `CartStore.setLoading` (lines 243-245). -/
def setLoading (st : StoreState) (isLoading : Bool) : StoreState :=
  { st with loading := isLoading }

/-- `CartStore.setError` (lines 251-253); `none` models `setError(null)`. -/
def setError (st : StoreState) (errorMessage : Option String) : StoreState :=
  { st with error := errorMessage }

/-! ### CartAPI (`src/assets/add-to-cart.js` lines 6-171) -/

/-- `CartAPI.getCart` (lines 152-170): `GET /cart.js`; a non-2xx status
throws the fixed message "Failed to fetch cart" (no body inspection);
otherwise the parsed JSON body is returned. -/
def CartAPI.getCart (net : NetState) : Except String JsonBody × NetState :=
  match fetchStep getRequest net with
  | (Except.error e, net1) => (Except.error e, net1)
  | (Except.ok r, net1) =>
    if r.ok then
      match r.json with
      | some j => (Except.ok j, net1)
      | none => (Except.error jsonParseError, net1)
    else (Except.error "Failed to fetch cart", net1)

/-- Error message computed by `CartAPI.addItem` on a non-2xx response
(lines 30-42): `error.description || error.message || default` when the
body parses as JSON, else `text || default`. -/
def addItemErrMsg (r : HttpResponse) : String :=
  match r.json with
  | some j => jsOrS j.description (jsOrS j.message "Failed to add item to cart")
  | none => if r.text = "" then "Failed to add item to cart" else r.text

/-- `CartAPI.addItem` (lines 16-57): `POST /cart/add.js`; on a non-2xx
status throw `addItemErrMsg`; on success parse the (partial) line-item
response, discard it, and return the result of a follow-up `getCart`. -/
def CartAPI.addItem (item : AddItemReq) (net : NetState) :
    Except String JsonBody × NetState :=
  match fetchStep (addRequest item) net with
  | (Except.error e, net1) => (Except.error e, net1)
  | (Except.ok r, net1) =>
    if r.ok then
      match r.json with
      | some _ => CartAPI.getCart net1
      | none => (Except.error jsonParseError, net1)
    else (Except.error (addItemErrMsg r), net1)

/-- `CartAPI.addItems` (lines 64-91): `POST /cart/add.js` with `{items}`;
on a non-2xx status `await response.json()` (throwing the parse error when
the body is not JSON) and throw `error.description || default`; on success
discard the partial response and return a follow-up `getCart`. -/
def CartAPI.addItems (items : List AddItemReq) (net : NetState) :
    Except String JsonBody × NetState :=
  match fetchStep (addManyRequest items) net with
  | (Except.error e, net1) => (Except.error e, net1)
  | (Except.ok r, net1) =>
    if r.ok then
      match r.json with
      | some _ => CartAPI.getCart net1
      | none => (Except.error jsonParseError, net1)
    else
      match r.json with
      | some j => (Except.error (jsOrS j.description "Failed to add items to cart"), net1)
      | none => (Except.error jsonParseError, net1)

/-- `CartAPI.updateItem` (lines 99-119): `POST /cart/change.js` with
`{id: key, quantity}`; on a non-2xx status `await response.json()`
(throwing the parse error when the body is not JSON) and throw
`error.description || 'Failed to update item'`; on success return the
parsed body directly (already a full snapshot). -/
def CartAPI.updateItem (key : String) (quantity : Int) (net : NetState) :
    Except String JsonBody × NetState :=
  match fetchStep (changeRequest key quantity) net with
  | (Except.error e, net1) => (Except.error e, net1)
  | (Except.ok r, net1) =>
    if r.ok then
      match r.json with
      | some j => (Except.ok j, net1)
      | none => (Except.error jsonParseError, net1)
    else
      match r.json with
      | some j => (Except.error (jsOrS j.description "Failed to update item"), net1)
      | none => (Except.error jsonParseError, net1)

/-- `CartAPI.removeItem` (lines 126-146): identical to `updateItem` with
`quantity` fixed to 0, except the fallback message is
`'Failed to remove item'`. -/
def CartAPI.removeItem (key : String) (net : NetState) :
    Except String JsonBody × NetState :=
  match fetchStep (changeRequest key 0) net with
  | (Except.error e, net1) => (Except.error e, net1)
  | (Except.ok r, net1) =>
    if r.ok then
      match r.json with
      | some j => (Except.ok j, net1)
      | none => (Except.error jsonParseError, net1)
    else
      match r.json with
      | some j => (Except.error (jsOrS j.description "Failed to remove item"), net1)
      | none => (Except.error jsonParseError, net1)

/-! ### CartManager (`src/assets/add-to-cart.js` lines 447-872)

The manager's mutation methods are modelled in big-step form: given a
store state and a network oracle they run to completion, the scripted
responses standing for the resolutions of the awaited fetches.  The
cart drawer (`sideCart.open`) and Alpine `nextTick` logging have no
effect on the store or the network and are not modelled.  In `addToCart`
and `CartManager.removeItem` the direct Alpine-store assignments
(lines 713-718 and 814-818) assign exactly the fields that the
immediately following `cartStore.updateCart(cart)` assigns again, so the
composed effect is that of `updateCart`. -/

/-- Synchronous start of `CartManager.addToCart` (lines 687-692), run
before the Gateway call is dispatched: `setLoading(true)` then
`setError(null)`. -/
def CartManager.addToCartBegin (st : StoreState) : StoreState :=
  setError (setLoading st true) none

/-- `CartManager.addToCart` (lines 687-765): begin, dispatch to
`CartAPI.addItems` when given an array (`Sum.inr`) else `CartAPI.addItem`;
on success apply the returned cart to the store; on failure
`setError(message)`; always `setLoading(false)`. -/
def CartManager.addToCart (fmt : Option (Int → String))
    (itemOrItems : AddItemReq ⊕ List AddItemReq) (st : StoreState)
    (net : NetState) : Except String JsonBody × StoreState × NetState :=
  let st1 := CartManager.addToCartBegin st
  let call := match itemOrItems with
    | Sum.inr items => CartAPI.addItems items net
    | Sum.inl item => CartAPI.addItem item net
  match call with
  | (Except.ok cart, net1) =>
    (Except.ok cart, setLoading (updateCart fmt st1 cart.asCart) false, net1)
  | (Except.error m, net1) =>
    (Except.error m, setLoading (setError st1 (some m)) false, net1)

/-- Synchronous start of `CartManager.updateQuantity` (lines 773-776),
run before the Gateway call is dispatched: only `setLoading(true)` —
the prior `error` is not touched. -/
def CartManager.updateQuantityBegin (st : StoreState) : StoreState :=
  setLoading st true

/-- `CartManager.updateQuantity` (lines 772-795): `setLoading(true)`,
call `CartAPI.updateItem`; on success `updateCart`; on failure
`setError(message)`; always `setLoading(false)`. -/
def CartManager.updateQuantity (fmt : Option (Int → String)) (key : String)
    (quantity : Int) (st : StoreState) (net : NetState) :
    Except String JsonBody × StoreState × NetState :=
  let st1 := CartManager.updateQuantityBegin st
  match CartAPI.updateItem key quantity net with
  | (Except.ok cart, net1) =>
    (Except.ok cart, setLoading (updateCart fmt st1 cart.asCart) false, net1)
  | (Except.error m, net1) =>
    (Except.error m, setLoading (setError st1 (some m)) false, net1)

/-- Synchronous start of `CartManager.removeItem` (lines 802-805):
only `setLoading(true)`. -/
def CartManager.removeItemBegin (st : StoreState) : StoreState :=
  setLoading st true

/-- `CartManager.removeItem` (lines 801-836): `setLoading(true)`, call
`CartAPI.removeItem`; on success direct assignments plus `updateCart`
(composing to `updateCart`); on failure `setError(message)`; always
`setLoading(false)`. -/
def CartManager.removeItem (fmt : Option (Int → String)) (key : String)
    (st : StoreState) (net : NetState) :
    Except String JsonBody × StoreState × NetState :=
  let st1 := CartManager.removeItemBegin st
  match CartAPI.removeItem key net with
  | (Except.ok cart, net1) =>
    (Except.ok cart, setLoading (updateCart fmt st1 cart.asCart) false, net1)
  | (Except.error m, net1) =>
    (Except.error m, setLoading (setError st1 (some m)) false, net1)

/-- `incrementQuantity` from `CartManager.getMethods` (lines 843-851):
look the key up in the store; when found, run `updateQuantity` with
`quantity + 1` (its returned promise is discarded); otherwise nothing. -/
def CartManager.incrementQuantity (fmt : Option (Int → String)) (key : String)
    (st : StoreState) (net : NetState) : StoreState × NetState :=
  match getItem st key with
  | some item =>
    match CartManager.updateQuantity fmt key (item.quantity + 1) st net with
    | (_, st1, net1) => (st1, net1)
  | none => (st, net)

/-- `decrementQuantity` from `CartManager.getMethods` (lines 852-860):
look the key up; only when found and `item.quantity > 1`, run
`updateQuantity` with `quantity - 1`; otherwise nothing. -/
def CartManager.decrementQuantity (fmt : Option (Int → String)) (key : String)
    (st : StoreState) (net : NetState) : StoreState × NetState :=
  match getItem st key with
  | some item =>
    if item.quantity > 1 then
      match CartManager.updateQuantity fmt key (item.quantity - 1) st net with
      | (_, st1, net1) => (st1, net1)
    else (st, net)
  | none => (st, net)

/-! ### UI triggers (`handleFormSubmit` lines 576-638, `handleQuickAdd`
lines 644-680)

Both handlers guard re-entry with a per-trigger `dataset.processing`
flag: checked and set before any await, cleared in `finally`.  The
asynchronous run of a handler together with the nested `addToCart` call
is modelled as a small-step machine on `TrigState`: a `fireStep` for the
synchronous prefix up to the first suspension (the POST), and a
`respondStep` consuming the resolution of the awaited fetch.  Parsing of
a response body (`await response.json()`) is folded into the response
event; the `processing` flag is constant across that boundary, so no
behavior visible to the claims is lost. -/

/-- Remove the first occurrence of `pat` in `s` — JS
`s.replace(pat, '')`. -/
def replaceFirst (s pat : String) : String :=
  match s.splitOn pat with
  | [] => s
  | [x] => x
  | x :: y :: rest => x ++ String.intercalate pat (y :: rest)

/-- JS object insertion `obj[k] = v` on an insertion-ordered association
list: overwrite in place when the key exists, else append. -/
def objInsert (props : List (String × String)) (k v : String) :
    List (String × String) :=
  if props.any (fun p => p.1 = k) then
    props.map (fun p => if p.1 = k then (k, v) else p)
  else props ++ [(k, v)]

/-- Property collection in `handleFormSubmit` (lines 607-615): for each
form-data entry whose key starts with `properties[` and ends with `]`,
strip the first occurrences of those delimiters and keep the entry when
its value is truthy (non-empty). -/
def collectProperties (entries : List (String × String)) :
    List (String × String) :=
  entries.foldl
    (fun props e =>
      if e.1.startsWith "properties[" && e.1.endsWith "]" then
        let propKey := replaceFirst (replaceFirst e.1 "properties[") "]"
        if e.2 = "" then props else objInsert props propKey e.2
      else props)
    []

/-- The data a product form contributes, after DOM lookups:
`variantId` is the resolved `id` value (form data, falling back to the
hidden `input[name=id]`; `none`/`""` model a missing id), `quantity` is
the already-parsed `parseInt(formData.get('quantity') || '1', 10)`, and
`entries` are the form-data entries scanned for properties. -/
structure FormInput where
  variantId : Option String
  quantity : Int
  entries : List (String × String)
deriving DecidableEq, Repr

/-- Request construction in `handleFormSubmit` (lines 589-622): throw
when no variant id is present (JS falsiness: absent or empty string),
else build the item, including `properties` only when nonempty. -/
def buildFormItem (form : FormInput) : Except String AddItemReq :=
  match form.variantId with
  | none => Except.error "Variant ID not found. Please select a product variant."
  | some vid =>
    if vid = "" then
      Except.error "Variant ID not found. Please select a product variant."
    else
      let props := collectProperties form.entries
      Except.ok { id := vid, quantity := form.quantity,
                  properties := if props.length > 0 then some props else none }

/-- The data a quick-add button contributes: `variantId` is
`dataset.variantId` falling back to the enclosing form's `input[name=id]`
value; `quantity` is the parsed `parseInt(dataset.quantity || '1', 10)`. -/
structure ButtonInput where
  variantId : Option String
  quantity : Int
deriving DecidableEq, Repr

/-- Request construction in `handleQuickAdd` (lines 657-667). -/
def buildQuickAddItem (btn : ButtonInput) : Except String AddItemReq :=
  match btn.variantId with
  | none => Except.error "Variant ID not found"
  | some vid =>
    if vid = "" then Except.error "Variant ID not found"
    else Except.ok { id := vid, quantity := btn.quantity, properties := none }

/-- Where an in-flight handler run is suspended: not running, awaiting
the `POST /cart/add.js` response, or awaiting the follow-up
`GET /cart.js` response. -/
inductive Phase where
  | idle
  | awaitingAdd
  | awaitingGet
deriving DecidableEq, Repr

/-- State of one UI trigger: its `dataset.processing` flag, the phase of
its in-flight run, the shared store, and the trace of issued requests. -/
structure TrigState where
  processing : Bool
  phase : Phase
  store : StoreState
  trace : List HttpRequest
deriving DecidableEq, Repr

/-- Firing a trigger (the synchronous prefix of `handleFormSubmit` /
`handleQuickAdd` up to the first await, `build` standing for the
handler's request construction): a trigger already `processing` returns
immediately; otherwise set the flag, `setLoading(true)`, build the item —
a build failure unwinds through catch (`setError`) and finally
(`setLoading(false)`, clear flag) with no request issued — then enter
`addToCart` (`setLoading(true)`, `setError(null)`) and issue the POST. -/
def fireStep (build : Except String AddItemReq) (s : TrigState) : TrigState :=
  if s.processing then s
  else
    match build with
    | Except.error m =>
      { s with store := setLoading (setError (setLoading s.store true) (some m)) false }
    | Except.ok item =>
      { processing := true,
        phase := Phase.awaitingAdd,
        store := CartManager.addToCartBegin (setLoading s.store true),
        trace := s.trace ++ [addRequest item] }

/-- Failure unwinding of an in-flight handler run: `addToCart` catch
(`setError m`) and finally (`setLoading false`), then the handler's catch
(`setError m` again) and finally (`setLoading false`, clear the
`processing` flag). -/
def trigFail (s : TrigState) (m : String) : TrigState :=
  { s with
    processing := false,
    phase := Phase.idle,
    store := setLoading (setError (setLoading (setError s.store (some m)) false)
      (some m)) false }

/-- Resolution of the awaited fetch of an in-flight handler run.
Awaiting the POST (`CartAPI.addItem` lines 28-50): a non-2xx status or an
unparseable body unwinds with the corresponding message; otherwise the
follow-up GET is issued.  Awaiting the GET (`CartAPI.getCart` plus the
success continuation of `addToCart`, lines 704-753): a failure unwinds;
a snapshot is applied via `updateCart` and the run completes, clearing
the flag.  With no await pending the event does nothing. -/
def respondStep (fmt : Option (Int → String)) (s : TrigState)
    (r : HttpResponse) : TrigState :=
  match s.phase with
  | Phase.idle => s
  | Phase.awaitingAdd =>
    if r.ok then
      match r.json with
      | some _ => { s with phase := Phase.awaitingGet, trace := s.trace ++ [getRequest] }
      | none => trigFail s jsonParseError
    else trigFail s (addItemErrMsg r)
  | Phase.awaitingGet =>
    if r.ok then
      match r.json with
      | some j =>
        { s with
          processing := false,
          phase := Phase.idle,
          store := setLoading (setLoading (updateCart fmt s.store j.asCart) false) false }
      | none => trigFail s jsonParseError
    else trigFail s "Failed to fetch cart"

/-! ### Concrete fixtures used by witnesses and counterexamples -/

/-- A sample line item with quantity 1. -/
def itemQ1 : LineItem :=
  { key := "k1", id := "V1", quantity := 1, price := 1099, available := true,
    properties := [] }

/-- A store holding exactly `itemQ1`. -/
def storeQ1 : StoreState :=
  { items := [itemQ1], item_count := 1, total_price := 1099,
    formatted_total := "$10.99", loading := false, error := none }

/-- A network oracle with no scripted responses and an empty trace. -/
def netEmpty : NetState := { pending := [], trace := [] }

/-- A sample add request. -/
def itemV1 : AddItemReq := { id := "V1", quantity := 2, properties := none }

/-- A partial line-item body, as `/cart/add.js` returns on success. -/
def lineItemBody : JsonBody :=
  { asCart := { items := none, item_count := none, total_price := none },
    description := none, message := none }

/-- A full cart snapshot body, as `/cart.js` returns. -/
def snapshotBody : JsonBody :=
  { asCart := { items := some [{ itemQ1 with quantity := 3 }],
                item_count := some 3, total_price := some 2997 },
    description := none, message := none }

/-- Successful response carrying the partial line-item body. -/
def respOkLine : HttpResponse := { ok := true, json := some lineItemBody, text := "" }

/-- Successful response carrying the full snapshot body. -/
def respOkSnapshot : HttpResponse := { ok := true, json := some snapshotBody, text := "" }

/-! ### Claims -/

/-- C5: when no platform formatter is present, `formatMoney(cents)`
returns the minor-unit amount divided by 100, fixed to exactly 2
decimals, prefixed with `$`; in particular `formatMoney 1099 = "$10.99"`
and `formatMoney 0 = "$0.00"`. -/
theorem c5_formatMoney_fallback :
    formatMoney none 1099 = "$10.99" ∧
    formatMoney none 0 = "$0.00" ∧
    ∀ n : Nat,
      formatMoney none (Int.ofNat n) =
        "$" ++ toString (n / 100) ++ "." ++
          (if n % 100 < 10 then "0" else "") ++ toString (n % 100) := by
  refine ⟨by decide, by decide, ?_⟩
  intro n
  have h : ¬ ((n : Int) < 0) := by omega
  simp [formatMoney, formatMoneyFallback, toFixed2, h, String.append_assoc]

/-- C9: for every payload handed to `updateCart`, the resulting state is
well-formed: `items` is `[]` whenever the payload's `items` field is not
an array and the payload's array otherwise, `item_count` and
`total_price` default to 0 when absent, `formatted_total` equals
`formatMoney` of the stored `total_price`, and `error` is `none`. -/
theorem c9_updateCart_wellformed (fmt : Option (Int → String))
    (st : StoreState) (cartData : CartData) :
    (cartData.items = none → (updateCart fmt st cartData).items = []) ∧
    (∀ l, cartData.items = some l → (updateCart fmt st cartData).items = l) ∧
    (cartData.item_count = none → (updateCart fmt st cartData).item_count = 0) ∧
    (∀ n, cartData.item_count = some n → (updateCart fmt st cartData).item_count = n) ∧
    (cartData.total_price = none → (updateCart fmt st cartData).total_price = 0) ∧
    (∀ n, cartData.total_price = some n → (updateCart fmt st cartData).total_price = n) ∧
    (updateCart fmt st cartData).formatted_total =
      formatMoney fmt (updateCart fmt st cartData).total_price ∧
    (updateCart fmt st cartData).error = none := by
  refine ⟨?_, ?_, ?_, ?_, ?_, ?_, ?_, ?_⟩ <;>
    simp_all [updateCart, jsOrZero]

/-- Witness for C9 at a malformed payload (no array, absent counters). -/
theorem c9_witness :
    (updateCart none CartStore.initial
      { items := none, item_count := none, total_price := none }).items = [] ∧
    (updateCart none storeQ1 snapshotBody.asCart).item_count = 3 ∧
    (updateCart none storeQ1 snapshotBody.asCart).formatted_total =
      formatMoney none (updateCart none storeQ1 snapshotBody.asCart).total_price := by
  have h1 := c9_updateCart_wellformed none CartStore.initial
    { items := none, item_count := none, total_price := none }
  have h2 := c9_updateCart_wellformed none storeQ1 snapshotBody.asCart
  exact ⟨h1.1 rfl, h2.2.2.2.1 3 rfl, h2.2.2.2.2.2.2.1⟩

/-- C4: `decrementQuantity key` with the targeted line at quantity 1
issues no Gateway call (network state unchanged, so in particular no
quantity-0 update is ever issued implicitly) and leaves the store
unchanged. -/
theorem c4_decrement_floor (fmt : Option (Int → String)) (key : String)
    (st : StoreState) (net : NetState) (item : LineItem)
    (hfound : getItem st key = some item) (hq : item.quantity = 1) :
    CartManager.decrementQuantity fmt key st net = (st, net) := by
  simp [CartManager.decrementQuantity, hfound, hq]

/-- Witness for C4: a store whose only line has quantity 1. -/
theorem c4_witness :
    CartManager.decrementQuantity none "k1" storeQ1 netEmpty = (storeQ1, netEmpty) :=
  c4_decrement_floor none "k1" storeQ1 netEmpty itemQ1 (by decide) (by decide)

/-- C10: `incrementQuantity` and `decrementQuantity` with a key matching
no line item in the store are complete no-ops: no request is issued and
neither the store nor the network state changes. -/
theorem c10_missing_key_noop (fmt : Option (Int → String)) (key : String)
    (st : StoreState) (net : NetState) (hmiss : getItem st key = none) :
    CartManager.incrementQuantity fmt key st net = (st, net) ∧
    CartManager.decrementQuantity fmt key st net = (st, net) := by
  constructor
  · simp [CartManager.incrementQuantity, hmiss]
  · simp [CartManager.decrementQuantity, hmiss]

/-- Witness for C10: a key absent from the store. -/
theorem c10_witness :
    CartManager.incrementQuantity none "absent" storeQ1 netEmpty = (storeQ1, netEmpty) ∧
    CartManager.decrementQuantity none "absent" storeQ1 netEmpty = (storeQ1, netEmpty) :=
  c10_missing_key_noop none "absent" storeQ1 netEmpty (by decide)

/-- C3: when a mutation's Gateway call fails with message `m`, the
store's `items`, `item_count`, `total_price` (and `formatted_total`) are
exactly what they were before the call; only `error` (set to `some m`)
and `loading` (returned to `false`) change.  Stated for `addToCart`
(single item or bundle), `updateQuantity` and `removeItem`. -/
theorem c3_failure_preserves_snapshot (fmt : Option (Int → String))
    (x : AddItemReq ⊕ List AddItemReq) (key : String) (q : Int)
    (st : StoreState) (net : NetState) (m : String) :
    ((CartManager.addToCart fmt x st net).1 = Except.error m →
      (CartManager.addToCart fmt x st net).2.1 =
        { st with error := some m, loading := false }) ∧
    ((CartManager.updateQuantity fmt key q st net).1 = Except.error m →
      (CartManager.updateQuantity fmt key q st net).2.1 =
        { st with error := some m, loading := false }) ∧
    ((CartManager.removeItem fmt key st net).1 = Except.error m →
      (CartManager.removeItem fmt key st net).2.1 =
        { st with error := some m, loading := false }) := by
  refine ⟨?_, ?_, ?_⟩
  · intro h
    cases x with
    | inl item =>
      rcases hres : CartAPI.addItem item net with ⟨res, net1⟩
      cases res with
      | ok cart => simp [CartManager.addToCart, hres] at h
      | error mm =>
        simp [CartManager.addToCart, hres] at h ⊢
        simp [h, CartManager.addToCartBegin, setLoading, setError]
    | inr items =>
      rcases hres : CartAPI.addItems items net with ⟨res, net1⟩
      cases res with
      | ok cart => simp [CartManager.addToCart, hres] at h
      | error mm =>
        simp [CartManager.addToCart, hres] at h ⊢
        simp [h, CartManager.addToCartBegin, setLoading, setError]
  · intro h
    rcases hres : CartAPI.updateItem key q net with ⟨res, net1⟩
    cases res with
    | ok cart => simp [CartManager.updateQuantity, hres] at h
    | error mm =>
      simp [CartManager.updateQuantity, hres] at h ⊢
      simp [h, CartManager.updateQuantityBegin, setLoading, setError]
  · intro h
    rcases hres : CartAPI.removeItem key net with ⟨res, net1⟩
    cases res with
    | ok cart => simp [CartManager.removeItem, hres] at h
    | error mm =>
      simp [CartManager.removeItem, hres] at h ⊢
      simp [h, CartManager.removeItemBegin, setLoading, setError]

/-- Witness for C3: a network-level failure (no scripted response) for an
add and for a quantity update on a populated store. -/
theorem c3_witness :
    (CartManager.addToCart none (Sum.inl itemV1) storeQ1 netEmpty).2.1 =
      { storeQ1 with error := some "Failed to fetch", loading := false } ∧
    (CartManager.updateQuantity none "k1" 2 storeQ1 netEmpty).2.1 =
      { storeQ1 with error := some "Failed to fetch", loading := false } := by
  have h := c3_failure_preserves_snapshot none (Sum.inl itemV1) "k1" 2 storeQ1
    netEmpty "Failed to fetch"
  exact ⟨h.1 rfl, h.2.1 rfl⟩

/-- C2: a single-item add the server accepts issues exactly one
`POST /cart/add.js` followed by exactly one `GET /cart.js`, and returns
the GET's full snapshot `j2` to the caller — never the POST's partial
body `j1` — so the store ends up holding `updateCart` of the GET's
snapshot. -/
theorem c2_add_then_fetch (fmt : Option (Int → String)) (item : AddItemReq)
    (st : StoreState) (r1 r2 : HttpResponse) (j1 j2 : JsonBody)
    (rest : List HttpResponse) (t : List HttpRequest)
    (h1 : r1.ok = true) (hj1 : r1.json = some j1)
    (h2 : r2.ok = true) (hj2 : r2.json = some j2) :
    CartAPI.addItem item ⟨r1 :: r2 :: rest, t⟩ =
      (Except.ok j2, ⟨rest, t ++ [addRequest item, getRequest]⟩) ∧
    (CartManager.addToCart fmt (Sum.inl item) st ⟨r1 :: r2 :: rest, t⟩).1 =
      Except.ok j2 ∧
    (CartManager.addToCart fmt (Sum.inl item) st ⟨r1 :: r2 :: rest, t⟩).2.1 =
      setLoading (updateCart fmt (CartManager.addToCartBegin st) j2.asCart) false := by
  have hA : CartAPI.addItem item ⟨r1 :: r2 :: rest, t⟩ =
      (Except.ok j2, ⟨rest, t ++ [addRequest item, getRequest]⟩) := by
    simp [CartAPI.addItem, CartAPI.getCart, fetchStep, h1, hj1, h2, hj2]
  refine ⟨hA, ?_, ?_⟩ <;> simp [CartManager.addToCart, hA]

/-- Witness for C2: a server that accepts the add (partial line body)
and then returns a full snapshot; the caller gets the snapshot body and
the trace is exactly POST then GET. -/
theorem c2_witness :
    CartAPI.addItem itemV1 ⟨[respOkLine, respOkSnapshot], []⟩ =
      (Except.ok snapshotBody, ⟨[], [addRequest itemV1, getRequest]⟩) ∧
    (CartManager.addToCart none (Sum.inl itemV1) CartStore.initial
        ⟨[respOkLine, respOkSnapshot], []⟩).2.1 =
      setLoading (updateCart none (CartManager.addToCartBegin CartStore.initial)
        snapshotBody.asCart) false := by
  have h := c2_add_then_fetch none itemV1 CartStore.initial respOkLine
    respOkSnapshot lineItemBody snapshotBody [] [] rfl rfl rfl rfl
  exact ⟨h.1, h.2.2⟩

/-- C6 counterexample: on a non-2xx response whose JSON body has no
`description`, `removeItem` surfaces `"Failed to remove item"` while
`updateItem` with quantity 0 surfaces `"Failed to update item"` — the
two operations are not behaviorally equivalent on failures. -/
theorem c6_counterexample :
    (CartAPI.removeItem "k1"
      ⟨[{ ok := false, json := some lineItemBody, text := "" }], []⟩).1 =
      Except.error "Failed to remove item" ∧
    (CartAPI.updateItem "k1" 0
      ⟨[{ ok := false, json := some lineItemBody, text := "" }], []⟩).1 =
      Except.error "Failed to update item" ∧
    "Failed to remove item" ≠ "Failed to update item" :=
  ⟨rfl, rfl, by decide⟩

/-- C6 amended: `removeItem key` and `updateItem key 0` issue the same
request (`POST /cart/change.js` with `{id: key, quantity: 0}`), leave the
network in the same state, succeed with the same result in the same
cases, and fail with the same message in the same cases — except that the
generic fallback message differs (`"Failed to remove item"` versus
`"Failed to update item"`). -/
theorem c6_remove_is_update_zero (key : String) (net : NetState) :
    (CartAPI.removeItem key net).2 = (CartAPI.updateItem key 0 net).2 ∧
    (∀ j, (CartAPI.removeItem key net).1 = Except.ok j ↔
          (CartAPI.updateItem key 0 net).1 = Except.ok j) ∧
    (∀ m, m ≠ "Failed to remove item" →
      (CartAPI.removeItem key net).1 = Except.error m →
      (CartAPI.updateItem key 0 net).1 = Except.error m) ∧
    (∀ m, m ≠ "Failed to update item" →
      (CartAPI.updateItem key 0 net).1 = Except.error m →
      (CartAPI.removeItem key net).1 = Except.error m) := by
  rcases net with ⟨pending, t⟩
  cases pending with
  | nil =>
    refine ⟨rfl, ?_, ?_, ?_⟩
    · intro j
      simp [CartAPI.removeItem, CartAPI.updateItem, fetchStep]
    · intro m hne h
      simp [CartAPI.removeItem, fetchStep] at h
      simp [CartAPI.updateItem, fetchStep, h]
    · intro m hne h
      simp [CartAPI.updateItem, fetchStep] at h
      simp [CartAPI.removeItem, fetchStep, h]
  | cons r rest =>
    rcases r with ⟨rok, rjson, rtext⟩
    cases rok with
    | true =>
      cases rjson with
      | none =>
        refine ⟨rfl, ?_, ?_, ?_⟩
        · intro j
          simp [CartAPI.removeItem, CartAPI.updateItem, fetchStep]
        · intro m hne h
          simp [CartAPI.removeItem, fetchStep] at h
          simp [CartAPI.updateItem, fetchStep, h]
        · intro m hne h
          simp [CartAPI.updateItem, fetchStep] at h
          simp [CartAPI.removeItem, fetchStep, h]
      | some j =>
        refine ⟨rfl, ?_, ?_, ?_⟩
        · intro j1
          simp [CartAPI.removeItem, CartAPI.updateItem, fetchStep]
        · intro m hne h
          simp [CartAPI.removeItem, fetchStep] at h
        · intro m hne h
          simp [CartAPI.updateItem, fetchStep] at h
    | false =>
      cases rjson with
      | none =>
        refine ⟨rfl, ?_, ?_, ?_⟩
        · intro j
          simp [CartAPI.removeItem, CartAPI.updateItem, fetchStep]
        · intro m hne h
          simp [CartAPI.removeItem, fetchStep] at h
          simp [CartAPI.updateItem, fetchStep, h]
        · intro m hne h
          simp [CartAPI.updateItem, fetchStep] at h
          simp [CartAPI.removeItem, fetchStep, h]
      | some j =>
        rcases j with ⟨jc, jdesc, jmsg⟩
        rcases hd : jdesc with _ | s
        · subst hd
          refine ⟨rfl, ?_, ?_, ?_⟩
          · intro j1
            simp [CartAPI.removeItem, CartAPI.updateItem, fetchStep]
          · intro m hne h
            simp [CartAPI.removeItem, fetchStep, jsOrS] at h
            exact absurd h.symm hne
          · intro m hne h
            simp [CartAPI.updateItem, fetchStep, jsOrS] at h
            exact absurd h.symm hne
        · subst hd
          by_cases hs : s = ""
          · subst hs
            refine ⟨rfl, ?_, ?_, ?_⟩
            · intro j1
              simp [CartAPI.removeItem, CartAPI.updateItem, fetchStep]
            · intro m hne h
              simp [CartAPI.removeItem, fetchStep, jsOrS] at h
              exact absurd h.symm hne
            · intro m hne h
              simp [CartAPI.updateItem, fetchStep, jsOrS] at h
              exact absurd h.symm hne
          · refine ⟨rfl, ?_, ?_, ?_⟩
            · intro j1
              simp [CartAPI.removeItem, CartAPI.updateItem, fetchStep]
            · intro m hne h
              simp [CartAPI.removeItem, fetchStep, jsOrS, hs] at h
              simp [CartAPI.updateItem, fetchStep, jsOrS, hs, h]
              intro hm
              exact absurd hm (h ▸ hs)
            · intro m hne h
              simp [CartAPI.updateItem, fetchStep, jsOrS, hs] at h
              simp [CartAPI.removeItem, fetchStep, jsOrS, hs, h]
              intro hm
              exact absurd hm (h ▸ hs)

/-- Witness for C6 amended: an accepted quantity-0 change; both
operations return the same snapshot and network state. -/
theorem c6_witness :
    (CartAPI.removeItem "k1" ⟨[respOkSnapshot], []⟩).2 =
      (CartAPI.updateItem "k1" 0 ⟨[respOkSnapshot], []⟩).2 ∧
    ((CartAPI.removeItem "k1" ⟨[respOkSnapshot], []⟩).1 = Except.ok snapshotBody ↔
      (CartAPI.updateItem "k1" 0 ⟨[respOkSnapshot], []⟩).1 = Except.ok snapshotBody) ∧
    (CartAPI.updateItem "k1" 0 ⟨[respOkSnapshot], []⟩).1 = Except.ok snapshotBody ∧
    (CartAPI.updateItem "k1" 0 netEmpty).1 = Except.error "Failed to fetch" := by
  have h := c6_remove_is_update_zero "k1" ⟨[respOkSnapshot], []⟩
  have hf := c6_remove_is_update_zero "k1" netEmpty
  exact ⟨h.1, h.2.1 snapshotBody, rfl, hf.2.2.1 "Failed to fetch" (by decide) rfl⟩

/-- C7 counterexample: on a non-2xx response whose body is not JSON,
`updateItem` surfaces the JSON parse error, not the raw response text
`"boom"`; and on a non-2xx response carrying a JSON error body with a
`description`, `getCart` surfaces the fixed `"Failed to fetch cart"`
without attempting any extraction — so the claimed fallback chain does
not hold for every Gateway operation. -/
theorem c7_counterexample :
    (CartAPI.updateItem "k1" 2
      ⟨[{ ok := false, json := none, text := "boom" }], []⟩).1 =
      Except.error jsonParseError ∧
    jsonParseError ≠ "boom" ∧
    (CartAPI.getCart
      ⟨[{ ok := false,
          json := some { asCart := { items := none, item_count := none,
                                     total_price := none },
                         description := some "detail", message := none },
          text := "raw" }], []⟩).1 =
      Except.error "Failed to fetch cart" ∧
    "Failed to fetch cart" ≠ "detail" :=
  ⟨rfl, by decide, rfl, by decide⟩

/-- C7 amended: on a non-2xx HTTP status every Gateway operation fails
with a structured error carrying a string message, but the extraction
policy differs per operation.  `addItem` implements the full chain:
truthy JSON `description`, else truthy JSON `message`, else (body not
JSON) the raw text, else the generic message.  `updateItem` (likewise
`removeItem` and `addItems`) extracts only the JSON `description`,
falls back to its generic message when the JSON has no truthy
`description`, and surfaces the JSON parse error — never the raw text —
when the body is not JSON.  `getCart` always fails with the fixed
message `"Failed to fetch cart"`. -/
theorem c7_failure_policy (r : HttpResponse) (key : String) (q : Int)
    (item : AddItemReq) (items : List AddItemReq) (rest : List HttpResponse)
    (t : List HttpRequest) (hok : r.ok = false) :
    ((CartAPI.addItem item ⟨r :: rest, t⟩).1 = Except.error (addItemErrMsg r)) ∧
    (∀ j s, r.json = some j → j.description = some s → s ≠ "" →
      addItemErrMsg r = s) ∧
    (∀ j s, r.json = some j → (j.description = none ∨ j.description = some "") →
      j.message = some s → s ≠ "" → addItemErrMsg r = s) ∧
    (∀ j, r.json = some j → (j.description = none ∨ j.description = some "") →
      (j.message = none ∨ j.message = some "") →
      addItemErrMsg r = "Failed to add item to cart") ∧
    (r.json = none → r.text ≠ "" → addItemErrMsg r = r.text) ∧
    (r.json = none → r.text = "" → addItemErrMsg r = "Failed to add item to cart") ∧
    (∀ j s, r.json = some j → j.description = some s → s ≠ "" →
      (CartAPI.updateItem key q ⟨r :: rest, t⟩).1 = Except.error s ∧
      (CartAPI.removeItem key ⟨r :: rest, t⟩).1 = Except.error s ∧
      (CartAPI.addItems items ⟨r :: rest, t⟩).1 = Except.error s) ∧
    (∀ j, r.json = some j → (j.description = none ∨ j.description = some "") →
      (CartAPI.updateItem key q ⟨r :: rest, t⟩).1 =
        Except.error "Failed to update item" ∧
      (CartAPI.removeItem key ⟨r :: rest, t⟩).1 =
        Except.error "Failed to remove item" ∧
      (CartAPI.addItems items ⟨r :: rest, t⟩).1 =
        Except.error "Failed to add items to cart") ∧
    (r.json = none →
      (CartAPI.updateItem key q ⟨r :: rest, t⟩).1 = Except.error jsonParseError ∧
      (CartAPI.removeItem key ⟨r :: rest, t⟩).1 = Except.error jsonParseError ∧
      (CartAPI.addItems items ⟨r :: rest, t⟩).1 = Except.error jsonParseError) ∧
    ((CartAPI.getCart ⟨r :: rest, t⟩).1 = Except.error "Failed to fetch cart") := by
  refine ⟨?_, ?_, ?_, ?_, ?_, ?_, ?_, ?_, ?_, ?_⟩
  · simp [CartAPI.addItem, fetchStep, hok]
  · intro j s hj hd hs
    simp [addItemErrMsg, hj, hd, jsOrS, hs]
  · intro j s hj hd hm hs
    rcases hd with hd | hd <;>
      simp [addItemErrMsg, hj, hd, hm, jsOrS, hs]
  · intro j hj hd hm
    rcases hd with hd | hd <;> rcases hm with hm | hm <;>
      simp [addItemErrMsg, hj, hd, hm, jsOrS]
  · intro hj ht
    simp [addItemErrMsg, hj, ht]
  · intro hj ht
    simp [addItemErrMsg, hj, ht]
  · intro j s hj hd hs
    refine ⟨?_, ?_, ?_⟩ <;>
      simp [CartAPI.updateItem, CartAPI.removeItem, CartAPI.addItems,
        fetchStep, hok, hj, hd, jsOrS, hs]
  · intro j hj hd
    rcases hd with hd | hd <;> refine ⟨?_, ?_, ?_⟩ <;>
      simp [CartAPI.updateItem, CartAPI.removeItem, CartAPI.addItems,
        fetchStep, hok, hj, hd, jsOrS]
  · intro hj
    refine ⟨?_, ?_, ?_⟩ <;>
      simp [CartAPI.updateItem, CartAPI.removeItem, CartAPI.addItems,
        fetchStep, hok, hj]
  · simp [CartAPI.getCart, fetchStep, hok]

/-- Witness for C7 amended, at a non-JSON error body with text `"boom"`
and at a JSON error body with a truthy `description`. -/
theorem c7_witness :
    addItemErrMsg { ok := false, json := none, text := "boom" } = "boom" ∧
    (CartAPI.updateItem "k1" 2
      ⟨[{ ok := false, json := none, text := "boom" }], []⟩).1 =
      Except.error jsonParseError ∧
    (CartAPI.updateItem "k1" 2
      ⟨[{ ok := false,
          json := some { asCart := { items := none, item_count := none,
                                     total_price := none },
                         description := some "detail", message := none },
          text := "raw" }], []⟩).1 =
      Except.error "detail" ∧
    (CartAPI.getCart ⟨[{ ok := false, json := none, text := "boom" }], []⟩).1 =
      Except.error "Failed to fetch cart" := by
  have h1 := c7_failure_policy { ok := false, json := none, text := "boom" }
    "k1" 2 itemV1 [] [] [] rfl
  have h2 := c7_failure_policy
    { ok := false,
      json := some { asCart := { items := none, item_count := none,
                                 total_price := none },
                     description := some "detail", message := none },
      text := "raw" } "k1" 2 itemV1 [] [] [] rfl
  refine ⟨h1.2.2.2.2.1 rfl (by decide), (h1.2.2.2.2.2.2.2.2.1 rfl).1, ?_, h1.2.2.2.2.2.2.2.2.2⟩
  exact (h2.2.2.2.2.2.2.1 _ "detail" rfl rfl (by decide)).1

/-- C8 counterexample: `updateQuantity` (lines 772-776) runs only
`setLoading(true)` before dispatching its Gateway call — a prior error
is still present in the store at dispatch time, so the error is not
cleared at the start of every mutation attempt. -/
theorem c8_counterexample :
    (CartManager.updateQuantityBegin
      { storeQ1 with error := some "previous error" }).error =
      some "previous error" ∧
    (CartManager.removeItemBegin
      { storeQ1 with error := some "previous error" }).error =
      some "previous error" ∧
    some "previous error" ≠ (none : Option String) :=
  ⟨rfl, rfl, by decide⟩

/-- C8 amended: at the start of an add mutation (single item or bundle —
both run through `addToCart`) the synchronizer sets `loading := true` and
clears the prior error before dispatching the Gateway call; at the start
of an update-quantity or remove mutation it only sets `loading := true`,
leaving the prior error in place (it is overwritten on failure or cleared
by `updateCart` on success). -/
theorem c8_mutation_begin (st : StoreState) :
    (CartManager.addToCartBegin st).loading = true ∧
    (CartManager.addToCartBegin st).error = none ∧
    (CartManager.updateQuantityBegin st).loading = true ∧
    (CartManager.updateQuantityBegin st).error = st.error ∧
    (CartManager.removeItemBegin st).loading = true ∧
    (CartManager.removeItemBegin st).error = st.error :=
  ⟨rfl, rfl, rfl, rfl, rfl, rfl⟩

/-- C1: a trigger whose `processing` flag is set drops a new fire
unchanged (not queued, not erroring); every settling response — the GET
resolution on any outcome, or a failing POST resolution — returns the
trigger to idle with the flag cleared; and from idle, firing twice with a
valid request issues exactly one Gateway call (one POST) and the trigger
may fire again once back at idle.  `build` ranges over both trigger
kinds' request construction (`buildFormItem`, `buildQuickAddItem`). -/
theorem c1_duplicate_inflight_dropped (fmt : Option (Int → String))
    (b : Except String AddItemReq) (s : TrigState) (r : HttpResponse)
    (item : AddItemReq) :
    (s.processing = true → fireStep b s = s) ∧
    (s.phase = Phase.awaitingGet →
      (respondStep fmt s r).processing = false ∧
      (respondStep fmt s r).phase = Phase.idle) ∧
    (s.phase = Phase.awaitingAdd → (r.ok = false ∨ r.json = none) →
      (respondStep fmt s r).processing = false ∧
      (respondStep fmt s r).phase = Phase.idle) ∧
    (s.processing = false → b = Except.ok item →
      (fireStep b s).processing = true ∧
      (fireStep b (fireStep b s)).trace = s.trace ++ [addRequest item]) := by
  refine ⟨?_, ?_, ?_, ?_⟩
  · intro h
    simp [fireStep, h]
  · intro h
    rcases r with ⟨rok, rjson, rtext⟩
    cases rok <;> cases rjson <;> simp [respondStep, h, trigFail]
  · intro h hor
    rcases r with ⟨rok, rjson, rtext⟩
    cases rok <;> cases rjson <;> simp_all [respondStep, trigFail]
  · intro hp hb
    subst hb
    exact ⟨by simp [fireStep, hp], by simp [fireStep, hp]⟩

/-- Witness for C1: a busy trigger drops a fire; a settling GET response
and a failing POST response both clear the flag; double-firing from idle
issues exactly one POST. -/
theorem c1_witness :
    fireStep (Except.ok itemV1)
      { processing := true, phase := Phase.awaitingAdd, store := storeQ1,
        trace := [addRequest itemV1] } =
      { processing := true, phase := Phase.awaitingAdd, store := storeQ1,
        trace := [addRequest itemV1] } ∧
    (respondStep none
      { processing := true, phase := Phase.awaitingGet, store := storeQ1,
        trace := [addRequest itemV1, getRequest] } respOkSnapshot).processing =
      false ∧
    (respondStep none
      { processing := true, phase := Phase.awaitingAdd, store := storeQ1,
        trace := [addRequest itemV1] }
      { ok := false, json := none, text := "" }).phase = Phase.idle ∧
    (fireStep (Except.ok itemV1)
      (fireStep (Except.ok itemV1)
        { processing := false, phase := Phase.idle, store := storeQ1,
          trace := [] })).trace = [addRequest itemV1] := by
  have hBusy := c1_duplicate_inflight_dropped none (Except.ok itemV1)
    ⟨true, Phase.awaitingAdd, storeQ1, [addRequest itemV1]⟩ respOkSnapshot itemV1
  have hGet := c1_duplicate_inflight_dropped none (Except.ok itemV1)
    ⟨true, Phase.awaitingGet, storeQ1, [addRequest itemV1, getRequest]⟩
    respOkSnapshot itemV1
  have hAdd := c1_duplicate_inflight_dropped none (Except.ok itemV1)
    ⟨true, Phase.awaitingAdd, storeQ1, [addRequest itemV1]⟩
    ⟨false, none, ""⟩ itemV1
  have hIdle := c1_duplicate_inflight_dropped none (Except.ok itemV1)
    ⟨false, Phase.idle, storeQ1, []⟩ respOkSnapshot itemV1
  exact ⟨hBusy.1 rfl, (hGet.2.1 rfl).1, (hAdd.2.2.1 rfl (Or.inl rfl)).2,
    by simpa using (hIdle.2.2.2 rfl rfl).2⟩
